import Mathlib

/-!
Verification of the `image_harvester` Bing Image Search client.

This file gives a shallow embedding of the repository's core logic:

* `image_harvester/api/models.py` — `ImageMetadata.from_dict`,
  `ImageMetadata.meets_size_requirements`, `SearchResult.from_response`,
  `SearchResult.filter_by_size`;
* `image_harvester/api/exceptions.py` — `handle_bing_error`;
* `image_harvester/api/bing_client.py` — `BingImageSearchClient.search`,
  `search_all` and `_make_request_with_retries`.

Python runtime values flowing through the code (parsed JSON and the values
the dataclasses actually store) are modelled by the inductive `PyVal`;
Python dictionaries are association lists with distinct keys (JSON objects
have unique keys, so first-match lookup coincides with dict lookup).
Code that can raise is modelled in `Except String`, the error string naming
the Python exception.  Network transports and the `datetime.fromisoformat`
parser are parameters of the embedding, universally quantified in the
theorems.  Floating-point JSON numbers do not occur in any behaviour the
claims exercise and are outside the model.
-/

namespace ImageHarvester

/-- A Python runtime value as handled by the client: `None`, booleans,
integers, strings, lists and string-keyed dictionaries. -/
inductive PyVal where
  | none : PyVal
  | bool : Bool → PyVal
  | int : Int → PyVal
  | str : String → PyVal
  | list : List PyVal → PyVal
  | dict : List (String × PyVal) → PyVal

/-- Python truth-value test (`bool(v)` / `if not v`): `None`, `False`, `0`,
`""` and empty containers are falsy, everything else is truthy. -/
def pyFalsy : PyVal → Bool
  | .none => true
  | .bool b => !b
  | .int n => n == 0
  | .str s => s == ""
  | .list l => l.isEmpty
  | .dict d => d.isEmpty

/-- `data.get(key, default)` on a Python dict. -/
def pyGetD (data : List (String × PyVal)) (key : String) (dflt : PyVal) : PyVal :=
  (data.lookup key).getD dflt

/-- The characters strictly before the first occurrence of `sep` in `cs`,
or `Option.none` when `sep` does not occur.  `firstSegment sep cs = some p`
captures both Python facts used by the code: `sep in s` is true and
`s.split(sep)[0] = p`. -/
def firstSegment (sep : List Char) : List Char → Option (List Char)
  | [] => Option.none
  | c :: rest =>
    if sep.isPrefixOf (c :: rest) then some []
    else (firstSegment sep rest).map (fun p => c :: p)

/-- Python `s.strip()`: leading and trailing whitespace removed. -/
def stripChars (cs : List Char) : List Char :=
  ((cs.dropWhile Char.isWhitespace).reverse.dropWhile Char.isWhitespace).reverse

/-- Python `s.rstrip('Z')`: all trailing `'Z'` characters removed. -/
def rstripZ (s : String) : String :=
  String.mk ((s.toList.reverse.dropWhile (· == 'Z')).reverse)

/-- Digit run of a Python integer literal: digits, with single underscores
allowed between digits (`int("1_2") = 12`), accumulating into `acc`. -/
def pyDigits : List Char → Nat → Option Nat
  | [], acc => some acc
  | '_' :: c :: rest, acc =>
      if c.isDigit then pyDigits rest (acc * 10 + (c.toNat - '0'.toNat)) else Option.none
  | c :: rest, acc =>
      if c.isDigit then pyDigits rest (acc * 10 + (c.toNat - '0'.toNat)) else Option.none

/-- Digit run that must start with a digit (no leading underscore). -/
def pyDigitsStart : List Char → Option Nat
  | [] => Option.none
  | c :: rest => if c.isDigit then pyDigits (c :: rest) 0 else Option.none

/-- Python `int(s)` on a string: surrounding whitespace stripped, optional
sign, then digits with optional single interior underscores; `none` models
the `ValueError` raised on any other input. -/
def pyParseInt (s : String) : Option Int :=
  match stripChars s.toList with
  | '+' :: rest => (pyDigitsStart rest).map Int.ofNat
  | '-' :: rest => (pyDigitsStart rest).map (fun n => -(n : Int))
  | rest => (pyDigitsStart rest).map Int.ofNat

/-- Python `key in container` for a string `key`: dict membership tests
keys, string membership is a substring test, list membership compares
elements (a `str` key can only equal `str` elements); on other values
Python raises `TypeError`. -/
def pyContainsStr (container : PyVal) (key : String) : Except String Bool :=
  match container with
  | .dict d => .ok (d.lookup key).isSome
  | .str s => .ok (key.toList == [] || (firstSegment key.toList s.toList).isSome)
  | .list l => .ok (l.any (fun v => match v with | .str s => s == key | _ => false))
  | _ => .error "TypeError: argument is not iterable"

/-- Python `container[key]` for a string `key`: only dicts support string
subscripts; `KeyError` cannot occur at the call sites (guarded by `in`). -/
def pySubscript (v : PyVal) (key : String) : Except String PyVal :=
  match v with
  | .dict d =>
    match d.lookup key with
    | some x => .ok x
    | Option.none => .error "KeyError"
  | _ => .error "TypeError: indices must be integers"

/-- Python `for item in v`: lists yield their elements, strings their
characters (as one-character strings), dicts their keys; other values raise
`TypeError`. -/
def pyIter : PyVal → Except String (List PyVal)
  | .list l => .ok l
  | .str s => .ok (s.toList.map (fun c => PyVal.str (String.mk [c])))
  | .dict d => .ok (d.map (fun p => PyVal.str p.1))
  | _ => .error "TypeError: object is not iterable"

/-- Python `s[:n]` for an integer `n`: negative `n` counts from the end. -/
def pySlice {α : Type} (l : List α) (n : Int) : List α :=
  if 0 ≤ n then l.take n.toNat else l.take ((l.length : Int) + n).toNat

/-- Python `v >= m` for an integer bound `m`: integers compare directly,
booleans coerce to 0/1; on any other value Python raises `TypeError`.
Used by `meets_size_requirements` (models.py line 124). -/
def pyGEInt (v : PyVal) (m : Int) : Except String Bool :=
  match v with
  | .int n => .ok (decide (m ≤ n))
  | .bool b => .ok (decide (m ≤ if b then (1 : Int) else 0))
  | _ => .error "TypeError: unsupported comparison"

/-- The `ImageMetadata` dataclass (models.py lines 10–26).  The Python
dataclass annotates `width`/`height` as `int` and `content_size` as
`Optional[int]`, but `from_dict` stores whatever value the raw JSON held
(and, for `content_size`, possibly an unconverted string), so the fields
are modelled as `PyVal`.  `created_date` holds the result of the
`datetime.fromisoformat` call, abstracted to the string the parser
produced (`Option.none` = Python `None`). -/
structure ImageMetadata where
  content_url : PyVal
  name : PyVal
  width : PyVal
  height : PyVal
  content_size : PyVal := .none
  encoding_format : PyVal := .none
  host_page_url : PyVal := .none
  thumbnail_url : PyVal := .none
  created_date : Option String := Option.none
  content_type : PyVal := .none
  accentColor : PyVal := .none
  raw_data : List (String × PyVal) := []

/-- models.py lines 46–50: `content_size = data.get('contentSize', None)`,
then a string containing `" B"` has the segment before the first `" B"`
parsed with `int(...)` (which raises `ValueError` on failure); any other
value — `None`, numbers, strings without `" B"`, containers — is kept
unchanged.  (`None` is never a `str`, so folding the `is not None` test
into the string match is exact.) -/
def parseContentSize (v : PyVal) : Except String PyVal :=
  match v with
  | .str s =>
    match firstSegment " B".toList s.toList with
    | some p =>
      match pyParseInt (String.mk p) with
      | some n => .ok (.int n)
      | Option.none => .error "ValueError: invalid literal for int"
    | Option.none => .ok (.str s)
  | v => .ok v

/-- models.py lines 56–62: `datePublished`, when present, gets
`.rstrip('Z')` (an `AttributeError` on non-strings, not caught by the
`except (ValueError, TypeError)` handler) and is then fed to
`datetime.fromisoformat`; parse failures are caught and leave `None`.
The ISO-8601 parser itself is the parameter `isoParse`. -/
def parseCreatedDate (isoParse : String → Option String)
    (data : List (String × PyVal)) : Except String (Option String) :=
  match data.lookup "datePublished" with
  | Option.none => .ok Option.none
  | some (.str s) => .ok (isoParse (rstripZ s))
  | some _ => .error "AttributeError: rstrip"

/-- `ImageMetadata.from_dict` (models.py lines 28–81).  The `contentSize`
conversion (line 50) runs before the `datePublished` parse (line 60), so
its `ValueError` is the one raised when both fields are malformed. -/
def ImageMetadata.from_dict (isoParse : String → Option String)
    (data : List (String × PyVal)) : Except String ImageMetadata :=
  match parseContentSize (pyGetD data "contentSize" .none) with
  | .error e => .error e
  | .ok content_size =>
    match parseCreatedDate isoParse data with
    | .error e => .error e
    | .ok created_date =>
      .ok { content_url := pyGetD data "contentUrl" (.str ""),
            name := pyGetD data "name" (.str ""),
            width := pyGetD data "width" (.int 0),
            height := pyGetD data "height" (.int 0),
            content_size := content_size,
            encoding_format := pyGetD data "encodingFormat" .none,
            host_page_url := pyGetD data "hostPageUrl" .none,
            thumbnail_url := pyGetD data "thumbnailUrl" .none,
            created_date := created_date,
            content_type := pyGetD data "contentType" .none,
            accentColor := pyGetD data "accentColor" .none,
            raw_data := data }

/-- `ImageMetadata.meets_size_requirements` (models.py lines 113–124):
`self.width >= min_width and self.height >= min_height`, with Python's
short-circuit `and`. -/
def ImageMetadata.meets_size_requirements (img : ImageMetadata)
    (min_width min_height : Int) : Except String Bool :=
  match pyGEInt img.width min_width with
  | .error e => .error e
  | .ok w => if w then pyGEInt img.height min_height else .ok false

/-- The `SearchResult` dataclass (models.py lines 126–132).  `next_offset`
is whatever raw value `response_data['nextOffset']` held (`.none` both for
an absent key and a JSON null, exactly as in Python). -/
structure SearchResult where
  query : String
  images : List ImageMetadata
  next_offset : PyVal := .none
  total_estimated_matches : PyVal := .int 0

/-- The per-item body of the mapping loop in `from_response` (models.py
lines 149–154): `ImageMetadata.from_dict(item)` appends on success; any
exception — including the `AttributeError` a non-dict item raises at
`data.get` — is caught by `except Exception` and the item is skipped. -/
def mapResponseItem (isoParse : String → Option String) (item : PyVal) :
    Option ImageMetadata :=
  match item with
  | .dict d => (ImageMetadata.from_dict isoParse d).toOption
  | _ => Option.none

/-- One iteration of the `for item in value` loop (models.py lines
149–154): append the mapped image on success, keep the accumulator
unchanged when the item was skipped. -/
def appendMapped (isoParse : String → Option String)
    (acc : List ImageMetadata) (item : PyVal) : List ImageMetadata :=
  match mapResponseItem isoParse item with
  | some image => acc ++ [image]
  | Option.none => acc

/-- `SearchResult.from_response` (models.py lines 134–168). -/
def SearchResult.from_response (isoParse : String → Option String)
    (query : String) (response_data : List (String × PyVal)) :
    Except String SearchResult :=
  match pyIter (pyGetD response_data "value" (.list [])) with
  | .error e => .error e
  | .ok items =>
    .ok { query := query,
          images := items.foldl (appendMapped isoParse) [],
          next_offset := pyGetD response_data "nextOffset" .none,
          total_estimated_matches := pyGetD response_data "totalEstimatedMatches" (.int 0) }

/-- The list comprehension of `filter_by_size` (models.py lines 181–184),
evaluated left to right, propagating the first exception
`meets_size_requirements` raises. -/
def filterImagesBySize (min_width min_height : Int) :
    List ImageMetadata → Except String (List ImageMetadata)
  | [] => .ok []
  | img :: rest =>
    match img.meets_size_requirements min_width min_height with
    | .error e => .error e
    | .ok keep =>
      match filterImagesBySize min_width min_height rest with
      | .error e => .error e
      | .ok tail => .ok (if keep then img :: tail else tail)

/-- `SearchResult.filter_by_size` (models.py lines 170–191): a new
`SearchResult` with the same `query`, `next_offset` and
`total_estimated_matches` and only the images passing the size check. -/
def SearchResult.filter_by_size (r : SearchResult)
    (min_width min_height : Int) : Except String SearchResult :=
  match filterImagesBySize min_width min_height r.images with
  | .error e => .error e
  | .ok filtered =>
    .ok { query := r.query, images := filtered, next_offset := r.next_offset,
          total_estimated_matches := r.total_estimated_matches }

/-- The three concrete `BingAPIError` subclasses (exceptions.py
lines 12–22). -/
inductive BingErrorKind where
  | authentication : BingErrorKind
  | rateLimit : BingErrorKind
  | search : BingErrorKind

/-- A constructed `BingAPIError` (exceptions.py lines 5–10): message,
originating status code and raw response body. -/
structure BingAPIError where
  kind : BingErrorKind
  message : String
  status_code : Int
  response : PyVal

/-- exceptions.py lines 35–41: the `error_message` variable — the literal
fallback `"Unknown Bing API error"`, replaced by `response_data['error']
['message']` when `response_data` is a dict with an `'error'` entry whose
value passes `'message' in error_data` (a test that itself raises
`TypeError` on non-container values).  The retrieved value need not be a
string. -/
def extract_error_message (response_data : PyVal) : Except String PyVal :=
  match response_data with
  | .dict d =>
    match d.lookup "error" with
    | some error_data =>
      match pyContainsStr error_data "message" with
      | .error e => .error e
      | .ok hasMessage =>
        if hasMessage then pySubscript error_data "message"
        else .ok (.str "Unknown Bing API error")
    | Option.none => .ok (.str "Unknown Bing API error")
  | _ => .ok (.str "Unknown Bing API error")

/-- Python `prefix + error_message`: `str + non-str` raises `TypeError`. -/
def pyStrConcat (a : String) (b : PyVal) : Except String String :=
  match b with
  | .str s => .ok (a ++ s)
  | _ => .error "TypeError: can only concatenate str to str"

/-- `handle_bing_error` (exceptions.py lines 24–49). -/
def handle_bing_error (status_code : Int) (response_data : PyVal) :
    Except String BingAPIError :=
  match extract_error_message response_data with
  | .error e => .error e
  | .ok error_message =>
    if status_code = 401 then
      match pyStrConcat "Authentication failed: " error_message with
      | .error e => .error e
      | .ok m => .ok { kind := .authentication, message := m,
                       status_code := status_code, response := response_data }
    else if status_code = 429 then
      match pyStrConcat "Rate limit exceeded: " error_message with
      | .error e => .error e
      | .ok m => .ok { kind := .rateLimit, message := m,
                       status_code := status_code, response := response_data }
    else
      match pyStrConcat (s!"Search error ({status_code}): ") error_message with
      | .error e => .error e
      | .ok m => .ok { kind := .search, message := m,
                       status_code := status_code, response := response_data }

/-- One attempted page request recorded by `search_all`: how many images
had been collected before it, the `count` passed to `search`
(bing_client.py line 151) and the `offset` passed to `search`. -/
structure PageRequest where
  collectedBefore : Nat
  count : Int
  offset : PyVal

/-- bing_client.py lines 142 and 146–147: with `count_per_request =
min(150, max_images)`, the per-page `current_count = min(max_images -
len(all_images), count_per_request)`. -/
def page_count (max_images : Int) (collected : Nat) : Int :=
  min (max_images - collected) (min 150 max_images)

/-- `BingImageSearchClient.search` (bing_client.py lines 56–121) as far as
the pagination logic observes it: the `count` request parameter is clamped
to 150 (line 92) and the transport `t` — HTTP call, retries and response
parsing — produces the page's `SearchResult`.  Rate limiting is a pure
time-side effect with no influence on the returned data. -/
def search (t : Int → PyVal → SearchResult) (count : Int) (offset : PyVal) :
    SearchResult :=
  t (min count 150) offset

/-- The `while len(all_images) < max_images` loop of `search_all`
(bing_client.py lines 144–166).  Returns the accumulated image list, the
final value of the per-page `result` variable (`Option.none` when the loop
body never executed, in which case the Python variable is unbound) and the
list of page requests issued.  The loop breaks when a page's `next_offset`
is falsy (`not result.next_offset` — absent key, `None`, `0`, … ) or its
image list is empty; otherwise `offset = result.next_offset` and the loop
repeats. -/
def search_all_loop (t : Int → PyVal → SearchResult) (max_images : Int)
    (all_images : List ImageMetadata) (offset : PyVal) :
    List ImageMetadata × Option SearchResult × List PageRequest :=
  if h : (all_images.length : Int) < max_images then
    if hstop : pyFalsy (search t (page_count max_images all_images.length) offset).next_offset
        || (search t (page_count max_images all_images.length) offset).images.isEmpty then
      (all_images ++ (search t (page_count max_images all_images.length) offset).images,
       some (search t (page_count max_images all_images.length) offset),
       [⟨all_images.length, page_count max_images all_images.length, offset⟩])
    else
      match search_all_loop t max_images
          (all_images ++ (search t (page_count max_images all_images.length) offset).images)
          (search t (page_count max_images all_images.length) offset).next_offset with
      | (rest, last, trace) =>
        (rest,
         some (last.getD (search t (page_count max_images all_images.length) offset)),
         ⟨all_images.length, page_count max_images all_images.length, offset⟩ :: trace)
  else
    (all_images, Option.none, [])
termination_by (max_images - all_images.length).toNat
decreasing_by
  simp only [Bool.or_eq_true, not_or, Bool.not_eq_true] at hstop
  have himg : ((search t (page_count max_images all_images.length) offset).images).length ≠ 0 := by
    intro hlen
    rw [List.isEmpty_iff_length_eq_zero.mpr hlen] at hstop
    exact absurd hstop.2 (by simp)
  simp only [List.length_append]
  omega

/-- `BingImageSearchClient.search_all` (bing_client.py lines 123–176).
After the loop, the combined `SearchResult` is built from
`all_images[:max_images]` and `result.total_estimated_matches`; when the
loop never ran, reading `result` raises `NameError`. -/
def search_all (t : Int → PyVal → SearchResult) (query : String)
    (max_images : Int) : Except String SearchResult × List PageRequest :=
  match search_all_loop t max_images [] (.int 0) with
  | (all_images, some result, trace) =>
    (.ok { query := query, images := pySlice all_images max_images,
           next_offset := .none,
           total_estimated_matches := result.total_estimated_matches }, trace)
  | (_, Option.none, trace) =>
    (.error "NameError: name result is not defined", trace)

/-- The `for attempt in range(1, self.max_retries + 1)` loop of
`_make_request_with_retries` (bing_client.py lines 212–242), over the list
of remaining attempt indices.  `t i` is the outcome of attempt `i` (GET,
`raise_for_status`, JSON decode).  Returns the outcome — `Except.error`
carrying the final `last_exception` (`Option.none` = raising the generic
`RequestException` when no attempt ever ran) — together with the number of
attempts made and the list of back-off sleep durations, `2^(attempt-1)`
after every failed attempt that still has attempts remaining. -/
def retry_go {E J : Type} (t : Nat → Except E J) (max_retries : Nat) :
    List Nat → Option E → List Nat → Except (Option E) J × Nat × List Nat
  | [], last_exception, sleeps => (.error last_exception, max_retries, sleeps)
  | attempt :: rest, _, sleeps =>
    match t attempt with
    | .ok v => (.ok v, attempt, sleeps)
    | .error e =>
      retry_go t max_retries rest (some e)
        (if attempt < max_retries then sleeps ++ [2 ^ (attempt - 1)] else sleeps)

/-- `BingImageSearchClient._make_request_with_retries` (bing_client.py
lines 194–242). -/
def make_request_with_retries {E J : Type} (t : Nat → Except E J)
    (max_retries : Nat) : Except (Option E) J × Nat × List Nat :=
  retry_go t max_retries (List.range' 1 max_retries) Option.none []

/-- A trivial stand-in for `datetime.fromisoformat` that rejects every
string; theorems about `from_dict` quantify over the parser, this instance
is only used to evaluate concrete inputs whose behaviour cannot depend on
it. -/
def isoParse0 : String → Option String := fun _ => Option.none

/-- A featureless mapped image, used to populate fake transport pages. -/
def dummyImage : ImageMetadata :=
  { content_url := .str "", name := .str "", width := .int 0, height := .int 0 }

/-- The fake transport of the spec's pagination scenario: every page
returns 50 images and a monotonically increasing `nextOffset`. -/
def fakeTransport : Int → PyVal → SearchResult := fun _ offset =>
  { query := "q", images := List.replicate 50 dummyImage,
    next_offset := match offset with | .int n => .int (n + 50) | _ => .int 50,
    total_estimated_matches := .int 1000 }

/-- The transport of the spec's retry scenario: attempts 1 and 2 fail,
attempt 3 succeeds. -/
def retryDemoTransport : Nat → Except String Nat := fun i =>
  if i ≤ 2 then .error (toString i) else .ok 42

/-- The raw objects on which the `contentSize` conversion inside
`from_dict` does not raise: `contentSize` absent, not a string, a string
without `" B"`, or a `" B"` string whose leading segment is a valid
integer literal. -/
def contentSizeSafe (data : List (String × PyVal)) : Bool :=
  match data.lookup "contentSize" with
  | some (.str s) =>
    match firstSegment " B".toList s.toList with
    | some p => (pyParseInt (String.mk p)).isSome
    | Option.none => true
  | _ => true

/-- The raw objects on which the `datePublished` handling inside
`from_dict` does not raise: the key absent or its value a string. -/
def dateSafe (data : List (String × PyVal)) : Bool :=
  match data.lookup "datePublished" with
  | some (.str _) => true
  | some _ => false
  | Option.none => true

/-- The bodies from which `handle_bing_error` can extract no API-supplied
message: not a dict (including null), no `error` key, or an `error` value
that is a dict without a `message` key. -/
def noApiMessage (response_data : PyVal) : Bool :=
  match response_data with
  | .dict d =>
    match d.lookup "error" with
    | some (.dict ed) => (ed.lookup "message").isNone
    | some _ => false
    | Option.none => true
  | _ => true

/-- The per-kind message prefix of `handle_bing_error` (exceptions.py
lines 44–49). -/
def statusPrefix (status_code : Int) : String :=
  if status_code = 401 then "Authentication failed: "
  else if status_code = 429 then "Rate limit exceeded: "
  else s!"Search error ({status_code}): "

/-- The spec's size-filter example image failing a 400×400 requirement. -/
def imgSmall : ImageMetadata :=
  { content_url := .str "", name := .str "small", width := .int 800, height := .int 300 }

/-- The spec's size-filter example image meeting a 400×400 requirement on
the boundary. -/
def imgOk : ImageMetadata :=
  { content_url := .str "", name := .str "ok", width := .int 400, height := .int 400 }

/-- A concrete result set for exercising `filter_by_size`. -/
def demoResult : SearchResult :=
  { query := "q", images := [imgSmall, imgOk], next_offset := .int 5,
    total_estimated_matches := .int 9 }

/-- A raw item collection with one mappable item, one item whose mapping
raises (`contentSize` `"x B"`), and one non-dict item. -/
def demoItems : List PyVal :=
  [PyVal.dict [("name", PyVal.str "a")],
   PyVal.dict [("contentSize", PyVal.str "x B")],
   PyVal.str "junk"]

/-- A raw response wrapping `demoItems`. -/
def demoResponse : List (String × PyVal) := [("value", PyVal.list demoItems)]

/-!  Theorems.  First, the three one-step unfoldings of the `search_all`
loop: the `while` guard failing, a page ending pagination (falsy
`next_offset` or no images), and a page that continues. -/

theorem search_all_loop_exhausted (t : Int → PyVal → SearchResult) (max_images : Int)
    (all_images : List ImageMetadata) (offset : PyVal)
    (h : ¬ ((all_images.length : Int) < max_images)) :
    search_all_loop t max_images all_images offset = (all_images, Option.none, []) := by
  rw [search_all_loop, dif_neg h]

theorem search_all_loop_break (t : Int → PyVal → SearchResult) (max_images : Int)
    (all_images : List ImageMetadata) (offset : PyVal)
    (h : (all_images.length : Int) < max_images)
    (hstop : (pyFalsy (search t (page_count max_images all_images.length) offset).next_offset
        || (search t (page_count max_images all_images.length) offset).images.isEmpty) = true) :
    search_all_loop t max_images all_images offset =
      (all_images ++ (search t (page_count max_images all_images.length) offset).images,
       some (search t (page_count max_images all_images.length) offset),
       [⟨all_images.length, page_count max_images all_images.length, offset⟩]) := by
  rw [search_all_loop, dif_pos h, dif_pos hstop]

theorem search_all_loop_continue (t : Int → PyVal → SearchResult) (max_images : Int)
    (all_images : List ImageMetadata) (offset : PyVal)
    (h : (all_images.length : Int) < max_images)
    (hstop : ¬ ((pyFalsy (search t (page_count max_images all_images.length) offset).next_offset
        || (search t (page_count max_images all_images.length) offset).images.isEmpty) = true)) :
    search_all_loop t max_images all_images offset =
      ((search_all_loop t max_images
          (all_images ++ (search t (page_count max_images all_images.length) offset).images)
          (search t (page_count max_images all_images.length) offset).next_offset).1,
       some (((search_all_loop t max_images
          (all_images ++ (search t (page_count max_images all_images.length) offset).images)
          (search t (page_count max_images all_images.length) offset).next_offset).2.1).getD
            (search t (page_count max_images all_images.length) offset)),
       ⟨all_images.length, page_count max_images all_images.length, offset⟩ ::
         (search_all_loop t max_images
          (all_images ++ (search t (page_count max_images all_images.length) offset).images)
          (search t (page_count max_images all_images.length) offset).next_offset).2.2) := by
  rw [search_all_loop, dif_pos h, dif_neg hstop]

/-- Each requested page count recorded by the loop equals
`min(remaining needed, min(150, maxImages))` for the number of images
collected before that request. -/
theorem search_all_loop_count_eq (t : Int → PyVal → SearchResult) (max_images : Int) :
    ∀ (acc : List ImageMetadata) (off : PyVal) (e : PageRequest),
      e ∈ (search_all_loop t max_images acc off).2.2 →
      e.count = min (max_images - e.collectedBefore) (min 150 max_images) := by
  suffices H : ∀ (n : Nat) (acc : List ImageMetadata) (off : PyVal) (e : PageRequest),
      (max_images - acc.length).toNat ≤ n →
      e ∈ (search_all_loop t max_images acc off).2.2 →
      e.count = min (max_images - e.collectedBefore) (min 150 max_images) by
    intro acc off e
    exact H (max_images - acc.length).toNat acc off e le_rfl
  intro n
  induction n with
  | zero =>
    intro acc off e hn he
    rw [search_all_loop_exhausted t max_images acc off (by omega)] at he
    simp at he
  | succ n ih =>
    intro acc off e hn he
    by_cases h : (acc.length : Int) < max_images
    · by_cases hstop : (pyFalsy (search t (page_count max_images acc.length) off).next_offset
          || (search t (page_count max_images acc.length) off).images.isEmpty) = true
      · rw [search_all_loop_break t max_images acc off h hstop] at he
        simp at he
        rw [he]
        simp [page_count]
      · rw [search_all_loop_continue t max_images acc off h hstop] at he
        simp at he
        rcases he with he | he
        · rw [he]
          simp [page_count]
        · have himg : (search t (page_count max_images acc.length) off).images ≠ [] := by
            intro hnil
            simp [hnil] at hstop
          have hpos := List.length_pos.mpr himg
          refine ih _ _ e ?_ he
          simp only [List.length_append]
          omega
    · rw [search_all_loop_exhausted t max_images acc off h] at he
      simp at he

/-- `search_all` reports exactly the loop's request trace. -/
theorem search_all_trace (t : Int → PyVal → SearchResult) (q : String)
    (max_images : Int) :
    (search_all t q max_images).2 =
      (search_all_loop t max_images [] (.int 0)).2.2 := by
  unfold search_all
  rcases search_all_loop t max_images [] (.int 0) with ⟨all, last, trace⟩
  cases last <;> rfl

/-- When `search_all` returns a result, its image list is the loop's
accumulated list truncated with `[:max_images]`. -/
theorem search_all_ok_images (t : Int → PyVal → SearchResult) (q : String)
    (max_images : Int) (r : SearchResult)
    (h : (search_all t q max_images).1 = .ok r) :
    r.images = pySlice (search_all_loop t max_images [] (.int 0)).1 max_images := by
  unfold search_all at h
  rcases hl : search_all_loop t max_images [] (.int 0) with ⟨all, last, trace⟩
  rw [hl] at h
  cases last with
  | none => simp at h
  | some res =>
    simp at h
    rw [← h]

/-- C1: for every transport, query and `maxImages ≥ 1`, `search_all`'s
returned image list has length at most `maxImages`, and exactly
`maxImages` when the pages supplied at least that many images; every page
request's count equals `min(remaining needed, min(150, maxImages))`; and
against the fake transport returning pages of 50 with increasing
`nextOffset`, `search_all(query, maxImages = 120)` issues exactly 3 page
requests with counts 120, 70, 20 — the last equal to 20 — and returns
exactly 120 images. -/
theorem C1_search_all_pagination :
    (∀ (t : Int → PyVal → SearchResult) (q : String) (max_images : Int),
      1 ≤ max_images →
      (∀ r, (search_all t q max_images).1 = .ok r →
        r.images.length ≤ max_images.toNat) ∧
      (∀ e ∈ (search_all t q max_images).2,
        e.count = min (max_images - e.collectedBefore) (min 150 max_images)) ∧
      (∀ r, (search_all t q max_images).1 = .ok r →
        max_images.toNat ≤ (search_all_loop t max_images [] (.int 0)).1.length →
        r.images.length = max_images.toNat)) ∧
    ((search_all fakeTransport "q" 120).2.map (fun e => e.count) = [120, 70, 20] ∧
     ∃ r, (search_all fakeTransport "q" 120).1 = .ok r ∧ r.images.length = 120) := by
  have hloop : search_all_loop fakeTransport 120 [] (.int 0) =
      (List.replicate 50 dummyImage ++ (List.replicate 50 dummyImage ++ List.replicate 50 dummyImage),
       some (fakeTransport 20 (.int 100)),
       [⟨0, 120, .int 0⟩, ⟨50, 70, .int 50⟩, ⟨100, 20, .int 100⟩]) := by
    rw [search_all_loop]
    norm_num [search, fakeTransport, page_count, pyFalsy]
    rw [search_all_loop]
    norm_num [search, fakeTransport, page_count, pyFalsy]
    rw [search_all_loop]
    norm_num [search, fakeTransport, page_count, pyFalsy]
    rw [search_all_loop]
    norm_num [search, fakeTransport, page_count, pyFalsy]
  refine ⟨fun t q max_images hmax => ⟨?_, ?_, ?_⟩, ?_, ?_⟩
  · intro r hr
    rw [search_all_ok_images t q max_images r hr]
    simp [pySlice, if_pos (by omega : (0:Int) ≤ max_images)]
  · intro e he
    rw [search_all_trace t q max_images] at he
    exact search_all_loop_count_eq t max_images [] (.int 0) e he
  · intro r hr hlen
    rw [search_all_ok_images t q max_images r hr]
    simp [pySlice, if_pos (by omega : (0:Int) ≤ max_images)]
    omega
  · simp [search_all, hloop]
  · have h1 : (search_all fakeTransport "q" 120).1 =
        .ok { query := "q",
              images := pySlice (List.replicate 50 dummyImage ++
                (List.replicate 50 dummyImage ++ List.replicate 50 dummyImage)) 120,
              next_offset := .none,
              total_estimated_matches := (fakeTransport 20 (.int 100)).total_estimated_matches } := by
      simp [search_all, hloop]
    refine ⟨_, h1, ?_⟩
    simp [pySlice]

/-- Witness for C1: the universally quantified part applied to the fake
transport, the query `"q"` and `maxImages = 120`, whose hypothesis
`1 ≤ 120` holds; together with the concrete 120-image conclusion. -/
theorem C1_search_all_pagination_witness :
    (1 : Int) ≤ 120 ∧
    (∀ r, (search_all fakeTransport "q" 120).1 = .ok r →
      r.images.length ≤ (120 : Int).toNat) ∧
    (∃ r, (search_all fakeTransport "q" 120).1 = .ok r ∧ r.images.length = 120) :=
  ⟨by norm_num,
   (C1_search_all_pagination.1 fakeTransport "q" 120 (by norm_num)).1,
   C1_search_all_pagination.2.2⟩

/-- C9: a fetched page whose `next_offset` is present but falsy (for
example the integer 0) ends pagination exactly as an absent `nextOffset`
does: `search_all` returns the same combined result either way and issues
at most one page request, even when fewer than `maxImages` images were
collected. -/
theorem C9_falsy_next_offset_ends_pagination
    (t tabsent : Int → PyVal → SearchResult) (q : String) (max_images : Int)
    (hfalsy : ∀ c o, pyFalsy (t c o).next_offset = true)
    (habsent : ∀ c o, tabsent c o = { t c o with next_offset := PyVal.none }) :
    search_all t q max_images = search_all tabsent q max_images ∧
    (search_all t q max_images).2.length ≤ 1 := by
  by_cases h : (0 : Int) < max_images
  · have hb : search_all_loop t max_images [] (.int 0) =
        ([] ++ (search t (page_count max_images 0) (.int 0)).images,
         some (search t (page_count max_images 0) (.int 0)),
         [⟨0, page_count max_images 0, .int 0⟩]) := by
      refine search_all_loop_break t max_images [] (.int 0) (by simpa using h) ?_
      simp [search, hfalsy]
    have hb' : search_all_loop tabsent max_images [] (.int 0) =
        ([] ++ (search tabsent (page_count max_images 0) (.int 0)).images,
         some (search tabsent (page_count max_images 0) (.int 0)),
         [⟨0, page_count max_images 0, .int 0⟩]) := by
      refine search_all_loop_break tabsent max_images [] (.int 0) (by simpa using h) ?_
      simp [search, habsent, pyFalsy]
    constructor
    · unfold search_all
      rw [hb, hb']
      simp [search, habsent]
    · unfold search_all
      rw [hb]
      simp
  · have he : search_all_loop t max_images [] (.int 0) = ([], Option.none, []) :=
      search_all_loop_exhausted t max_images [] (.int 0) (by simpa using h)
    have he' : search_all_loop tabsent max_images [] (.int 0) = ([], Option.none, []) :=
      search_all_loop_exhausted tabsent max_images [] (.int 0) (by simpa using h)
    constructor
    · unfold search_all
      rw [he, he']
    · unfold search_all
      rw [he]
      simp

/-- Witness for C9: a transport whose pages carry `nextOffset = 0`
compared with the same pages carrying no `nextOffset`, at
`maxImages = 100`: the hypotheses hold and pagination stops after one
request. -/
theorem C9_falsy_next_offset_ends_pagination_witness :
    (∀ c o, pyFalsy (((fun (_ : Int) (_ : PyVal) =>
        { query := "q", images := [dummyImage], next_offset := PyVal.int 0,
          total_estimated_matches := PyVal.int 7 } : Int → PyVal → SearchResult) c o).next_offset) = true) ∧
    (search_all (fun (_ : Int) (_ : PyVal) =>
        { query := "q", images := [dummyImage], next_offset := PyVal.int 0,
          total_estimated_matches := PyVal.int 7 }) "q" 100).2.length ≤ 1 := by
  refine ⟨fun c o => by simp [pyFalsy], ?_⟩
  exact (C9_falsy_next_offset_ends_pagination
    (fun _ _ => { query := "q", images := [dummyImage], next_offset := PyVal.int 0,
                  total_estimated_matches := PyVal.int 7 })
    (fun _ _ => { query := "q", images := [dummyImage], next_offset := PyVal.none,
                  total_estimated_matches := PyVal.int 7 })
    "q" 100 (fun c o => by simp [pyFalsy]) (fun c o => rfl)).2

/-- C10: for every `max_images ≤ 0`, `search_all` issues no page request
and fails with the `NameError` from reading the never-assigned `result`
variable, instead of returning an empty result set. -/
theorem C10_nonpositive_max_images_name_error
    (t : Int → PyVal → SearchResult) (q : String) (max_images : Int)
    (h : max_images ≤ 0) :
    search_all t q max_images =
      (.error "NameError: name result is not defined", []) := by
  unfold search_all
  rw [search_all_loop_exhausted t max_images [] (.int 0) (by simpa using by omega : ¬ (((([] : List ImageMetadata)).length : Int) < max_images))]

/-- Witness for C10: at `max_images = 0` the hypothesis `0 ≤ 0` holds and
`search_all` raises the `NameError` with an empty request trace. -/
theorem C10_nonpositive_max_images_name_error_witness :
    (0 : Int) ≤ 0 ∧
    search_all fakeTransport "q" 0 =
      (.error "NameError: name result is not defined", []) :=
  ⟨le_refl 0, C10_nonpositive_max_images_name_error fakeTransport "q" 0 (le_refl 0)⟩

/-- The retry loop never reports more attempts than the attempt indices it
was given allow. -/
theorem retry_go_attempts_le {E J : Type} (t : Nat → Except E J)
    (max_retries : Nat) :
    ∀ (l : List Nat) (le : Option E) (sl : List Nat),
      (∀ i ∈ l, i ≤ max_retries) →
      (retry_go t max_retries l le sl).2.1 ≤ max_retries := by
  intro l
  induction l with
  | nil => intro le sl _; simp [retry_go]
  | cons a rest ih =>
    intro le sl hle
    rw [retry_go]
    rcases t a with e | v
    · exact ih (some e) _ (fun i hi => hle i (List.mem_cons_of_mem a hi))
    · exact hle a (List.mem_cons_self a rest)

/-- Running the retry loop over attempts `a, a+1, …` when the first `n`
of them fail and attempt `a + n` succeeds: the success value is returned
after attempt `a + n`, with a `2^(i-1)` sleep recorded for every failed
attempt `i < max_retries`. -/
theorem retry_go_success {E J : Type} (t : Nat → Except E J)
    (max_retries : Nat) :
    ∀ (n m a : Nat) (le : Option E) (sl : List Nat) (v : J) (f : Nat → E),
      n < m →
      (∀ i, a ≤ i → i < a + n → t i = .error (f i)) →
      t (a + n) = .ok v →
      retry_go t max_retries (List.range' a m) le sl =
        (.ok v, a + n,
         sl ++ ((List.range' a n).filter (fun i => decide (i < max_retries))).map
           (fun i => 2 ^ (i - 1))) := by
  intro n
  induction n with
  | zero =>
    intro m a le sl v f hm _ hok
    rcases m with _ | m
    · omega
    · rw [List.range'_succ a m 1, retry_go]
      simp only [Nat.add_zero] at hok
      rw [hok]
      simp
  | succ n ih =>
    intro m a le sl v f hm hfail hok
    rcases m with _ | m
    · omega
    · rw [List.range'_succ a m 1, retry_go]
      rw [hfail a le_rfl (by omega)]
      dsimp only
      have hok' : t (a + 1 + n) = .ok v := by
        rw [show a + 1 + n = a + (n + 1) by omega]
        exact hok
      rw [ih m (a + 1) (some (f a)) _ v f (by omega)
        (fun i h1 h2 => hfail i (by omega) (by omega)) hok']
      rw [show a + 1 + n = a + (n + 1) by omega]
      rw [List.range'_succ a n 1]
      simp only [List.filter_cons]
      by_cases ha : a < max_retries
      · simp [ha]
      · simp [ha]

/-- Running the retry loop over attempts `a, …, a+n-1` when all of them
fail: the error raised is the last recorded failure (or the initial
`last_exception` when no attempt ran). -/
theorem retry_go_all_fail {E J : Type} (t : Nat → Except E J)
    (max_retries : Nat) :
    ∀ (n a : Nat) (le : Option E) (sl : List Nat) (f : Nat → E),
      (∀ i, a ≤ i → i < a + n → t i = .error (f i)) →
      retry_go t max_retries (List.range' a n) le sl =
        (.error (if n = 0 then le else some (f (a + n - 1))), max_retries,
         sl ++ ((List.range' a n).filter (fun i => decide (i < max_retries))).map
           (fun i => 2 ^ (i - 1))) := by
  intro n
  induction n with
  | zero =>
    intro a le sl f _
    simp [retry_go]
  | succ n ih =>
    intro a le sl f hfail
    rw [List.range'_succ a n 1, retry_go]
    rw [hfail a le_rfl (by omega)]
    dsimp only
    rw [ih (a + 1) (some (f a)) _ f (fun i h1 h2 => hfail i (by omega) (by omega))]
    simp only [List.filter_cons]
    rcases n with _ | n
    · by_cases ha : a < max_retries <;> simp [ha]
    · rw [if_neg (by omega : ¬ (n + 1 = 0)),
        if_neg (by omega : ¬ (n + 1 + 1 = 0)),
        show a + 1 + (n + 1) - 1 = a + (n + 1 + 1) - 1 by omega]
      by_cases ha : a < max_retries <;> simp [ha]

/-- The sleep schedule `2^0, 2^1, …` over the first `k` failed attempts,
rewritten from attempt indices to `List.range`. -/
theorem range'_backoff_map (k : Nat) :
    (List.range' 1 k).map (fun i => 2 ^ (i - 1)) =
      (List.range k).map (fun i => 2 ^ i) := by
  rw [List.range'_eq_map_range 1 k, List.map_map]
  refine List.map_congr_left ?_
  intro i _
  simp

/-- C6: the request loop makes at most `maxRetries` attempts; when the
first `k-1` attempts fail and attempt `k ≤ maxRetries` succeeds, the
decoded body is returned immediately after `k` attempts, having slept
`1, 2, 4, …, 2^(k-2)` time units after the failed attempts; when every
attempt fails, the loop makes exactly `maxRetries` attempts, sleeps
`2^(attemptIndex-1)` after each failed attempt except the last, and
raises the last recorded transport failure. -/
theorem C6_make_request_with_retries :
    ∀ (E J : Type) (t : Nat → Except E J) (max_retries : Nat),
      (make_request_with_retries t max_retries).2.1 ≤ max_retries ∧
      (∀ (k : Nat) (v : J) (f : Nat → E), 1 ≤ k → k ≤ max_retries →
        (∀ i, 1 ≤ i → i < k → t i = .error (f i)) → t k = .ok v →
        make_request_with_retries t max_retries =
          (.ok v, k, (List.range (k - 1)).map (fun i => 2 ^ i))) ∧
      (∀ (f : Nat → E), 1 ≤ max_retries →
        (∀ i, 1 ≤ i → i ≤ max_retries → t i = .error (f i)) →
        make_request_with_retries t max_retries =
          (.error (some (f max_retries)), max_retries,
           (List.range (max_retries - 1)).map (fun i => 2 ^ i))) := by
  intro E J t max_retries
  refine ⟨?_, ?_, ?_⟩
  · refine retry_go_attempts_le t max_retries _ Option.none [] ?_
    intro i hi
    rw [List.mem_range'] at hi
    omega
  · intro k v f h1 hk hfail hok
    unfold make_request_with_retries
    have hok' : t (1 + (k - 1)) = .ok v := by
      rw [show 1 + (k - 1) = k by omega]
      exact hok
    rw [retry_go_success t max_retries (k - 1) max_retries 1 Option.none [] v f
      (by omega) (fun i hi1 hi2 => hfail i hi1 (by omega)) hok']
    have hfilter : (List.range' 1 (k - 1)).filter (fun i => decide (i < max_retries)) =
        List.range' 1 (k - 1) := by
      refine List.filter_eq_self.mpr ?_
      intro i hi
      rw [List.mem_range'] at hi
      simp only [decide_eq_true_eq]
      omega
    rw [hfilter, range'_backoff_map]
    simp only [List.nil_append]
    rw [show 1 + (k - 1) = k by omega]
  · intro f hmr hfail
    unfold make_request_with_retries
    rw [retry_go_all_fail t max_retries max_retries 1 Option.none [] f
      (fun i hi1 hi2 => hfail i hi1 (by omega))]
    have hsplit : List.range' 1 max_retries =
        List.range' 1 (max_retries - 1) ++ [max_retries] := by
      have h := List.range'_append 1 (max_retries - 1) 1 1
      simp only [List.range'_one, one_mul] at h
      rw [show 1 + (max_retries - 1) = max_retries by omega] at h
      exact h.symm
    have hfilter : (List.range' 1 max_retries).filter
        (fun i => decide (i < max_retries)) = List.range' 1 (max_retries - 1) := by
      rw [hsplit, List.filter_append]
      have h1 : (List.range' 1 (max_retries - 1)).filter
          (fun i => decide (i < max_retries)) = List.range' 1 (max_retries - 1) := by
        refine List.filter_eq_self.mpr ?_
        intro i hi
        rw [List.mem_range'] at hi
        simp only [decide_eq_true_eq]
        omega
      have h2 : ([max_retries] : List Nat).filter
          (fun i => decide (i < max_retries)) = [] := by
        simp
      rw [h1, h2, List.append_nil]
    rw [hfilter, range'_backoff_map]
    simp only [List.nil_append]
    rw [if_neg (by omega : ¬ (max_retries = 0)),
      show 1 + max_retries - 1 = max_retries by omega]

/-- Witness for C6: the transport that fails twice and succeeds on the
third attempt, with `maxRetries = 3`: the hypotheses hold, the call
returns the successful value after 3 attempts having slept 1 then 2 time
units. -/
theorem C6_make_request_with_retries_witness :
    (1 ≤ 3 ∧ (∀ i, 1 ≤ i → i < 3 → retryDemoTransport i = .error (toString i)) ∧
      retryDemoTransport 3 = .ok 42) ∧
    make_request_with_retries retryDemoTransport 3 = (.ok 42, 3, [1, 2]) := by
  refine ⟨⟨by norm_num, ?_, rfl⟩, ?_⟩
  · intro i h1 h2
    interval_cases i <;> rfl
  · have := (C6_make_request_with_retries String Nat retryDemoTransport 3).2.1 3 42
      (fun i => toString i) (by norm_num) (by norm_num)
      (fun i h1 h2 => by interval_cases i <;> rfl) rfl
    simpa using this

/-- The `contentSize` conversion succeeds exactly on `contentSizeSafe`
inputs. -/
theorem parseContentSize_ok_iff (data : List (String × PyVal)) :
    (∃ v, parseContentSize (pyGetD data "contentSize" .none) = .ok v) ↔
      contentSizeSafe data = true := by
  unfold contentSizeSafe
  rcases hl : data.lookup "contentSize" with _ | v
  · simp [pyGetD, hl, parseContentSize]
  · rcases v with _ | b | n | s | l | d
    case none => simp [pyGetD, hl, parseContentSize]
    case bool => simp [pyGetD, hl, parseContentSize]
    case int => simp [pyGetD, hl, parseContentSize]
    case list => simp [pyGetD, hl, parseContentSize]
    case dict => simp [pyGetD, hl, parseContentSize]
    case str =>
      rw [show pyGetD data "contentSize" PyVal.none = PyVal.str s from by
        simp [pyGetD, hl]]
      rw [parseContentSize]
      dsimp only
      rcases hseg : firstSegment " B".toList s.toList with _ | p <;> dsimp only
      · simp
      · rcases hint : pyParseInt (String.mk p) with _ | n <;> dsimp only <;> simp

/-- The `datePublished` handling succeeds exactly on `dateSafe` inputs. -/
theorem parseCreatedDate_ok_iff (isoParse : String → Option String)
    (data : List (String × PyVal)) :
    (∃ v, parseCreatedDate isoParse data = .ok v) ↔ dateSafe data = true := by
  rcases hl : data.lookup "datePublished" with _ | v
  · simp [parseCreatedDate, dateSafe, hl]
  · rcases v with _ | b | n | s | l | d <;> simp [parseCreatedDate, dateSafe, hl]

/-- C2 (amended): `from_dict` returns a record exactly when the
`contentSize` value is safe (not a `" B"` string with a non-integer
prefix) and the `datePublished` value, if present, is a string — on other
objects it raises — and on success any missing `contentUrl`, `name`,
`width`, `height` default to `""`, `""`, `0`, `0`. -/
theorem C2_from_dict_totality :
    ∀ (isoParse : String → Option String) (data : List (String × PyVal)),
      ((∃ rec, ImageMetadata.from_dict isoParse data = .ok rec) ↔
        (contentSizeSafe data = true ∧ dateSafe data = true)) ∧
      (∀ rec, ImageMetadata.from_dict isoParse data = .ok rec →
        (data.lookup "contentUrl" = Option.none → rec.content_url = .str "") ∧
        (data.lookup "name" = Option.none → rec.name = .str "") ∧
        (data.lookup "width" = Option.none → rec.width = .int 0) ∧
        (data.lookup "height" = Option.none → rec.height = .int 0)) := by
  intro isoParse data
  constructor
  · rw [← parseContentSize_ok_iff data, ← parseCreatedDate_ok_iff isoParse data]
    unfold ImageMetadata.from_dict
    rcases hcs : parseContentSize (pyGetD data "contentSize" .none) with e | cs <;>
      rcases hcd : parseCreatedDate isoParse data with e' | cd <;> simp [hcs, hcd]
  · intro rec hrec
    unfold ImageMetadata.from_dict at hrec
    rcases hcs : parseContentSize (pyGetD data "contentSize" .none) with e | cs <;>
      rw [hcs] at hrec
    · simp at hrec
    · rcases hcd : parseCreatedDate isoParse data with e' | cd <;> rw [hcd] at hrec
      · simp at hrec
      · simp only [Except.ok.injEq] at hrec
        refine ⟨?_, ?_, ?_, ?_⟩ <;> intro h <;> rw [← hrec] <;> simp [pyGetD, h]

/-- Witness for C2: the empty raw object satisfies both safety conditions
and maps to a record carrying all four defaults. -/
theorem C2_from_dict_totality_witness :
    (contentSizeSafe [] = true ∧ dateSafe [] = true) ∧
    ∃ rec, ImageMetadata.from_dict isoParse0 [] = .ok rec ∧
      rec.content_url = .str "" ∧ rec.name = .str "" ∧
      rec.width = .int 0 ∧ rec.height = .int 0 := by
  refine ⟨⟨rfl, rfl⟩, ?_⟩
  obtain ⟨rec, hrec⟩ := (C2_from_dict_totality isoParse0 []).1.mpr ⟨rfl, rfl⟩
  obtain ⟨h1, h2, h3, h4⟩ := (C2_from_dict_totality isoParse0 []).2 rec hrec
  exact ⟨rec, hrec, h1 rfl, h2 rfl, h3 rfl, h4 rfl⟩

/-- Counterexample for C2 as stated: the raw object
`{"contentSize": "bad B"}` makes `from_dict` raise a `ValueError`
(`int("bad")`), so the mapper is not total on JSON objects. -/
theorem C2_from_dict_totality_counterexample :
    ImageMetadata.from_dict isoParse0 [("contentSize", PyVal.str "bad B")] =
      .error "ValueError: invalid literal for int" := rfl

/-- C3 (amended): a `contentSize` string containing `" B"` with an
integer-literal leading segment maps to that integer, a numeric value
passes through unchanged, an absent or null value maps to `None` — but a
string without `" B"` (such as `"bad"`) is kept as the unconverted string
rather than becoming null, and a `" B"` string with a non-integer prefix
raises `ValueError`. -/
theorem C3_content_size_mapping :
    (∀ (isoParse : String → Option String) (data : List (String × PyVal))
        (rec : ImageMetadata), ImageMetadata.from_dict isoParse data = .ok rec →
      ((data.lookup "contentSize" = Option.none ∨
          data.lookup "contentSize" = some PyVal.none) →
        rec.content_size = PyVal.none) ∧
      (∀ n : Int, data.lookup "contentSize" = some (.int n) →
        rec.content_size = .int n) ∧
      (∀ s p (n : Int), data.lookup "contentSize" = some (.str s) →
        firstSegment " B".toList s.toList = some p →
        pyParseInt (String.mk p) = some n →
        rec.content_size = .int n) ∧
      (∀ s, data.lookup "contentSize" = some (.str s) →
        firstSegment " B".toList s.toList = Option.none →
        rec.content_size = .str s)) ∧
    (∀ (isoParse : String → Option String) (data : List (String × PyVal)) s p,
      data.lookup "contentSize" = some (.str s) →
      firstSegment " B".toList s.toList = some p →
      pyParseInt (String.mk p) = Option.none →
      ImageMetadata.from_dict isoParse data =
        .error "ValueError: invalid literal for int") ∧
    ((ImageMetadata.from_dict isoParse0 [("contentSize", PyVal.str "102400 B")]).map
      (fun r => r.content_size) = .ok (.int 102400)) ∧
    ((ImageMetadata.from_dict isoParse0 [("contentSize", PyVal.int 204800)]).map
      (fun r => r.content_size) = .ok (.int 204800)) ∧
    ((ImageMetadata.from_dict isoParse0 [("contentSize", PyVal.str "bad")]).map
      (fun r => r.content_size) = .ok (.str "bad")) := by
  refine ⟨?_, ?_, rfl, rfl, rfl⟩
  · intro isoParse data rec hrec
    unfold ImageMetadata.from_dict at hrec
    rcases hcs : parseContentSize (pyGetD data "contentSize" .none) with e | cs <;>
      rw [hcs] at hrec
    · simp at hrec
    · rcases hcd : parseCreatedDate isoParse data with e' | cd <;> rw [hcd] at hrec
      · simp at hrec
      · simp only [Except.ok.injEq] at hrec
        have hfield : rec.content_size = cs := by rw [← hrec]
        refine ⟨?_, ?_, ?_, ?_⟩
        · rintro (h | h) <;>
            · rw [hfield]
              rw [show pyGetD data "contentSize" PyVal.none = PyVal.none by
                simp [pyGetD, h]] at hcs
              simpa [parseContentSize] using hcs.symm
        · intro n h
          rw [hfield]
          rw [show pyGetD data "contentSize" PyVal.none = PyVal.int n by
            simp [pyGetD, h]] at hcs
          simpa [parseContentSize] using hcs.symm
        · intro s p n hlook hseg hint
          rw [hfield]
          rw [show pyGetD data "contentSize" PyVal.none = PyVal.str s by
            simp [pyGetD, hlook]] at hcs
          rw [parseContentSize, hseg] at hcs
          dsimp only at hcs
          rw [hint] at hcs
          simpa using hcs.symm
        · intro s hlook hseg
          rw [hfield]
          rw [show pyGetD data "contentSize" PyVal.none = PyVal.str s by
            simp [pyGetD, hlook]] at hcs
          rw [parseContentSize, hseg] at hcs
          dsimp only at hcs
          simpa using hcs.symm
  · intro isoParse data s p hlook hseg hint
    unfold ImageMetadata.from_dict
    rw [show pyGetD data "contentSize" PyVal.none = PyVal.str s by
      simp [pyGetD, hlook]]
    rw [parseContentSize, hseg]
    dsimp only
    rw [hint]

/-- Witness for C3: the numeric pass-through clause applied to
`{"contentSize": 204800}`. -/
theorem C3_content_size_mapping_witness :
    ([("contentSize", PyVal.int 204800)].lookup "contentSize" =
      some (PyVal.int 204800)) ∧
    ({ content_url := .str "", name := .str "", width := .int 0,
       height := .int 0, content_size := .int 204800,
       raw_data := [("contentSize", PyVal.int 204800)] } :
        ImageMetadata).content_size = PyVal.int 204800 := by
  refine ⟨rfl, ?_⟩
  have h := (C3_content_size_mapping.1 isoParse0 [("contentSize", PyVal.int 204800)]
    { content_url := .str "", name := .str "", width := .int 0,
      height := .int 0, content_size := .int 204800,
      raw_data := [("contentSize", PyVal.int 204800)] } rfl).2.1 204800 rfl
  exact h

/-- Counterexample for C3 as stated: on a `contentSize` string `"bad"`
(no `" B"` pattern) the mapped field is the string itself, not null. -/
theorem C3_content_size_mapping_counterexample :
    (ImageMetadata.from_dict isoParse0 [("contentSize", PyVal.str "bad")]).map
      (fun r => r.content_size) = .ok (.str "bad") ∧
    PyVal.str "bad" ≠ PyVal.none :=
  ⟨rfl, fun h => PyVal.noConfusion h⟩

/-- On every body carrying no API-supplied message the extraction yields
the literal fallback `"Unknown Bing API error"`. -/
theorem extract_error_message_fallback (body : PyVal)
    (h : noApiMessage body = true) :
    extract_error_message body = .ok (.str "Unknown Bing API error") := by
  rcases body with _ | b | n | s | l | d <;> try rfl
  unfold noApiMessage at h
  unfold extract_error_message
  dsimp only at h ⊢
  rcases hl : d.lookup "error" with _ | v
  · rfl
  · rw [hl] at h
    rcases v with _ | vb | vn | vs | vl | ed
    case none => simp at h
    case bool => simp at h
    case int => simp at h
    case str => simp at h
    case list => simp at h
    case dict =>
      dsimp only at h ⊢
      rw [show pyContainsStr (PyVal.dict ed) "message" =
        .ok ((ed.lookup "message").isSome) from rfl]
      rcases hm : ed.lookup "message" with _ | mv
      · rfl
      · rw [hm] at h
        simp at h

/-- C4 (amended): whenever no API-supplied message can be extracted from
the body — null, not an object, no `error` key, or an `error` object
without `message` — the classified error's message is the per-kind prefix
followed by the literal fallback `"Unknown Bing API error"` (not
`"Unknown API error"` as the spec states); in particular status 429 gives
a rate-limit error with message
`"Rate limit exceeded: Unknown Bing API error"`. -/
theorem C4_unknown_error_fallback (status_code : Int) (body : PyVal)
    (h : noApiMessage body = true) :
    ∃ e, handle_bing_error status_code body = .ok e ∧
      e.message = statusPrefix status_code ++ "Unknown Bing API error" ∧
      (status_code = 429 → e.kind = .rateLimit ∧
        e.message = "Rate limit exceeded: Unknown Bing API error") := by
  unfold handle_bing_error
  rw [extract_error_message_fallback body h]
  unfold statusPrefix
  by_cases h1 : status_code = 401
  · subst h1
    exact ⟨_, rfl, rfl, fun hc => absurd hc (by norm_num)⟩
  · by_cases h2 : status_code = 429
    · subst h2
      rw [if_neg (by norm_num : ¬ ((429 : Int) = 401))]
      exact ⟨_, rfl, rfl, fun _ => ⟨rfl, rfl⟩⟩
    · dsimp only
      rw [if_neg h1, if_neg h2, if_neg h1, if_neg h2]
      exact ⟨_, rfl, rfl, fun hc => absurd hc h2⟩

/-- Witness for C4 (amended): status 429 with the null body. -/
theorem C4_unknown_error_fallback_witness :
    noApiMessage PyVal.none = true ∧
    ∃ e, handle_bing_error 429 PyVal.none = .ok e ∧
      e.kind = .rateLimit ∧
      e.message = "Rate limit exceeded: Unknown Bing API error" := by
  refine ⟨rfl, ?_⟩
  obtain ⟨e, h1, h2, h3⟩ := C4_unknown_error_fallback 429 PyVal.none rfl
  exact ⟨e, h1, (h3 rfl).1, (h3 rfl).2⟩

/-- Counterexample for C4 as stated: the code's fallback literal is
`"Unknown Bing API error"`, so status 429 with an unparseable body yields
`"Rate limit exceeded: Unknown Bing API error"`, not the spec's
`"Rate limit exceeded: Unknown API error"`. -/
theorem C4_unknown_error_fallback_counterexample :
    (handle_bing_error 429 PyVal.none).map BingAPIError.message =
      .ok "Rate limit exceeded: Unknown Bing API error" ∧
    "Rate limit exceeded: Unknown Bing API error" ≠
      "Rate limit exceeded: Unknown API error" :=
  ⟨rfl, by decide⟩

/-- C5 (amended): on every status code and every body on which message
extraction completes with a string (it raises `TypeError` on bodies such
as `{"error": 5}`), the classifier returns an authentication error exactly
for status 401, a rate-limit error exactly for 429 and a search error for
every other status, with the per-kind prefixed message, the originating
status code and the raw body. -/
theorem C5_handle_bing_error_classification (status_code : Int) (body : PyVal)
    (msg : String) (h : extract_error_message body = .ok (.str msg)) :
    ∃ e, handle_bing_error status_code body = .ok e ∧
      e.status_code = status_code ∧ e.response = body ∧
      e.message = statusPrefix status_code ++ msg ∧
      (e.kind = .authentication ↔ status_code = 401) ∧
      (e.kind = .rateLimit ↔ status_code = 429) ∧
      (e.kind = .search ↔ (status_code ≠ 401 ∧ status_code ≠ 429)) := by
  unfold handle_bing_error
  rw [h]
  unfold statusPrefix
  by_cases h1 : status_code = 401
  · subst h1
    refine ⟨_, rfl, rfl, rfl, rfl, ?_, ?_, ?_⟩ <;> simp
  · by_cases h2 : status_code = 429
    · subst h2
      rw [if_neg (by norm_num : ¬ ((429 : Int) = 401))]
      refine ⟨_, rfl, rfl, rfl, rfl, ?_, ?_, ?_⟩ <;> simp
    · dsimp only
      rw [if_neg h1, if_neg h2, if_neg h1, if_neg h2]
      refine ⟨_, rfl, rfl, rfl, rfl, ?_, ?_, ?_⟩ <;> simp [h1, h2]

/-- Witness for C5 (amended): status 401 with body
`{"error": {"message": "bad key"}}` classifies as an authentication error
with message `"Authentication failed: bad key"`. -/
theorem C5_handle_bing_error_classification_witness :
    extract_error_message
      (PyVal.dict [("error", PyVal.dict [("message", PyVal.str "bad key")])]) =
      .ok (.str "bad key") ∧
    ∃ e, handle_bing_error 401
        (PyVal.dict [("error", PyVal.dict [("message", PyVal.str "bad key")])]) =
        .ok e ∧
      e.kind = .authentication ∧ e.message = "Authentication failed: bad key" := by
  refine ⟨rfl, ?_⟩
  obtain ⟨e, h1, _, _, h4, h5, _, _⟩ :=
    C5_handle_bing_error_classification 401
      (PyVal.dict [("error", PyVal.dict [("message", PyVal.str "bad key")])])
      "bad key" rfl
  exact ⟨e, h1, h5.mpr rfl, h4⟩

/-- Counterexample for C5 as stated: the classifier does not return an
error value for every body — `{"error": 5}` makes the membership test
`'message' in error_data` raise `TypeError`, and a non-string `message`
value makes the prefix concatenation raise `TypeError`. -/
theorem C5_handle_bing_error_classification_counterexample :
    handle_bing_error 401 (PyVal.dict [("error", PyVal.int 5)]) =
      .error "TypeError: argument is not iterable" ∧
    handle_bing_error 401 (PyVal.dict [("error", PyVal.dict [("message", PyVal.int 5)])]) =
      .error "TypeError: can only concatenate str to str" :=
  ⟨rfl, rfl⟩

/-- `meets_size_requirements` on an image with integer width and height
computes both boundary-inclusive comparisons. -/
theorem meets_size_int (img : ImageMetadata) (min_width min_height w hgt : Int)
    (hw : img.width = .int w) (hh : img.height = .int hgt) :
    img.meets_size_requirements min_width min_height =
      .ok (decide (min_width ≤ w) && decide (min_height ≤ hgt)) := by
  unfold ImageMetadata.meets_size_requirements pyGEInt
  rw [hw, hh]
  dsimp only
  by_cases hcw : min_width ≤ w
  · simp [hcw]
  · simp [hcw]

/-- The filtering comprehension succeeds on integer-sized images and keeps
exactly the images passing the size check, in order. -/
theorem filterImagesBySize_ok (min_width min_height : Int) :
    ∀ (l : List ImageMetadata),
      (∀ img ∈ l, (∃ w : Int, img.width = .int w) ∧
        (∃ hgt : Int, img.height = .int hgt)) →
      filterImagesBySize min_width min_height l =
        .ok (l.filter (fun img =>
          match img.meets_size_requirements min_width min_height with
          | .ok b => b
          | .error _ => false)) := by
  intro l
  induction l with
  | nil => intro _; rfl
  | cons img rest ih =>
    intro hall
    obtain ⟨⟨w, hw⟩, hgt, hh⟩ := hall img (List.mem_cons_self img rest)
    have hm := meets_size_int img min_width min_height w hgt hw hh
    rw [filterImagesBySize, hm]
    dsimp only
    rw [ih (fun i hi => hall i (List.mem_cons_of_mem img hi))]
    rw [List.filter_cons]
    simp [hm]

/-- C7: on a result set whose images carry integer widths and heights,
`filter_by_size(minW, minH)` returns a new result set with the same
`query`, `nextOffset` and `totalEstimatedMatches` whose images are exactly
the images passing `meets_size_requirements`, in order; and
`meets_size_requirements` holds iff `width ≥ minW` and `height ≥ minH`,
boundary inclusive.  (`filter_by_size` builds a fresh `SearchResult` from
an unchanged `r`, so `r` is not mutated.) -/
theorem C7_filter_by_size (r : SearchResult) (min_width min_height : Int)
    (h : ∀ img ∈ r.images, (∃ w : Int, img.width = .int w) ∧
      (∃ hgt : Int, img.height = .int hgt)) :
    (∃ r', r.filter_by_size min_width min_height = .ok r' ∧
      r'.query = r.query ∧ r'.next_offset = r.next_offset ∧
      r'.total_estimated_matches = r.total_estimated_matches ∧
      r'.images = r.images.filter (fun img =>
        match img.meets_size_requirements min_width min_height with
        | .ok b => b
        | .error _ => false)) ∧
    (∀ (img : ImageMetadata) (w hgt : Int), img.width = .int w →
      img.height = .int hgt →
      (img.meets_size_requirements min_width min_height = .ok true ↔
        (min_width ≤ w ∧ min_height ≤ hgt))) := by
  constructor
  · unfold SearchResult.filter_by_size
    rw [filterImagesBySize_ok min_width min_height r.images h]
    exact ⟨_, rfl, rfl, rfl, rfl, rfl⟩
  · intro img w hgt hw hh
    rw [meets_size_int img min_width min_height w hgt hw hh]
    constructor
    · intro he
      have : (decide (min_width ≤ w) && decide (min_height ≤ hgt)) = true := by
        simpa using he
      simpa using this
    · rintro ⟨h1, h2⟩
      simp [h1, h2]

/-- Witness for C7: filtering the two spec example images by 400×400
keeps exactly the boundary image and preserves the other fields. -/
theorem C7_filter_by_size_witness :
    (∀ img ∈ demoResult.images, (∃ w : Int, img.width = .int w) ∧
      (∃ hgt : Int, img.height = .int hgt)) ∧
    ∃ r', demoResult.filter_by_size 400 400 = .ok r' ∧
      r'.query = "q" ∧ r'.next_offset = .int 5 ∧
      r'.total_estimated_matches = .int 9 ∧ r'.images = [imgOk] := by
  have hall : ∀ img ∈ demoResult.images, (∃ w : Int, img.width = .int w) ∧
      (∃ hgt : Int, img.height = .int hgt) := by
    intro img hi
    simp [demoResult] at hi
    rcases hi with h | h <;> subst h
    · exact ⟨⟨800, rfl⟩, 300, rfl⟩
    · exact ⟨⟨400, rfl⟩, 400, rfl⟩
  refine ⟨hall, ?_⟩
  obtain ⟨⟨r', h1, h2, h3, h4, h5⟩, _⟩ := C7_filter_by_size demoResult 400 400 hall
  exact ⟨r', h1, h2, h3, h4, h5.trans rfl⟩

/-- A fold that appends the image on mapping success and skips it on
failure equals `filterMap` over the item list. -/
theorem foldl_append_filterMap (isoParse : String → Option String) :
    ∀ (l : List PyVal) (acc : List ImageMetadata),
      l.foldl (appendMapped isoParse) acc =
        acc ++ l.filterMap (mapResponseItem isoParse) := by
  intro l
  induction l with
  | nil => intro acc; simp
  | cons a rest ih =>
    intro acc
    rw [List.foldl_cons, List.filterMap_cons]
    rcases hf : mapResponseItem isoParse a with _ | x
    · rw [show appendMapped isoParse acc a = acc from by
        unfold appendMapped; rw [hf]]
      exact ih acc
    · rw [show appendMapped isoParse acc a = acc ++ [x] from by
        unfold appendMapped; rw [hf]]
      rw [ih (acc ++ [x])]
      simp

/-- C8: `from_response` maps each item of the response's `value`
collection (empty when the key is absent) through `from_dict`; an item
whose mapping raises is skipped while every other item still appears, and
the mapper itself returns a result rather than raising. -/
theorem C8_from_response_skips_bad_items (isoParse : String → Option String)
    (q : String) (resp : List (String × PyVal)) :
    (resp.lookup "value" = Option.none →
      ∃ res, SearchResult.from_response isoParse q resp = .ok res ∧
        res.query = q ∧ res.images = []) ∧
    (∀ items, resp.lookup "value" = some (.list items) →
      ∃ res, SearchResult.from_response isoParse q resp = .ok res ∧
        res.query = q ∧
        res.images = items.filterMap (mapResponseItem isoParse)) := by
  constructor
  · intro h
    unfold SearchResult.from_response
    rw [show pyGetD resp "value" (.list []) = .list [] by simp [pyGetD, h]]
    exact ⟨_, rfl, rfl, rfl⟩
  · intro items h
    unfold SearchResult.from_response
    rw [show pyGetD resp "value" (.list []) = .list items by simp [pyGetD, h]]
    dsimp only [pyIter]
    refine ⟨_, rfl, rfl, ?_⟩
    dsimp only
    rw [foldl_append_filterMap isoParse items []]
    simp

/-- Witness for C8: a page with one good item, one item whose mapping
raises `ValueError`, and one non-dict item still returns a result whose
image list keeps exactly the good item. -/
theorem C8_from_response_skips_bad_items_witness :
    demoResponse.lookup "value" = some (.list demoItems) ∧
    ∃ res, SearchResult.from_response isoParse0 "q" demoResponse = .ok res ∧
      res.images.length = 1 := by
  obtain ⟨res, h1, _, h3⟩ :=
    (C8_from_response_skips_bad_items isoParse0 "q" demoResponse).2 demoItems rfl
  refine ⟨rfl, res, h1, ?_⟩
  rw [h3]
  rfl

end ImageHarvester
